import Mathlib

/-!
Verification development for the quazzar_tasks front-end reconciliation core.

Strings from the TypeScript source are modelled as lists of characters
(`Str`); the per-screen component state is modelled as a record, and the
asynchronous callback bodies as pure state-transition functions.  Remote
calls are modelled by an oracle record describing the outcome of each
gateway operation, and the sequence of requests a flow issues is collected
as a trace of `Op` values.
-/

namespace App

/-- Strings of the embedded program: lists of characters. -/
abbrev Str := List Char

/-- Membership of the character class A-Z or 0-9 used by the VIN regexes. -/
def isVinChar (c : Char) : Bool :=
  decide ((65 ≤ c.toNat ∧ c.toNat ≤ 90) ∨ (48 ≤ c.toNat ∧ c.toNat ≤ 57))

/-- Membership of the character class a-z or 0-9 used by labelToCol. -/
def isLowerAlnum (c : Char) : Bool :=
  decide ((97 ≤ c.toNat ∧ c.toNat ≤ 122) ∨ (48 ≤ c.toNat ∧ c.toNat ≤ 57))

/-- ASCII decimal digit test, for the regex fragment matching digits. -/
def isDigitCh (c : Char) : Bool :=
  decide (48 ≤ c.toNat ∧ c.toNat ≤ 57)

/-- Whitespace characters recognised by trim and by the regex fragment
matching spaces, restricted to the ASCII repertoire of the model. -/
def isSpaceCh (c : Char) : Bool :=
  c = ' ' || c = '\t' || c = '\n' || c = '\r'

/-- Model of the JavaScript toUpperCase applied per character
(Basic Latin range, which is all the code feeds it). -/
def jsToUpper (c : Char) : Char :=
  if 97 ≤ c.toNat ∧ c.toNat ≤ 122 then Char.ofNat (c.toNat - 32) else c

/-- Model of the JavaScript toLowerCase applied per character
(Basic Latin range, which is all the code feeds it). -/
def jsToLower (c : Char) : Char :=
  if 65 ≤ c.toNat ∧ c.toNat ≤ 90 then Char.ofNat (c.toNat + 32) else c

/-- Composite effect of normalize("NFD") followed by deleting combining
marks, on the Spanish Latin repertoire the catalog labels use. -/
def stripAccent (c : Char) : Char :=
  match c with
  | 'á' => 'a' | 'é' => 'e' | 'í' => 'i' | 'ó' => 'o' | 'ú' => 'u'
  | 'ü' => 'u' | 'ñ' => 'n'
  | 'Á' => 'A' | 'É' => 'E' | 'Í' => 'I' | 'Ó' => 'O' | 'Ú' => 'U'
  | 'Ü' => 'U' | 'Ñ' => 'N'
  | _ => c

/-- Model of the JavaScript String.trim. -/
def trimStr (l : Str) : Str :=
  ((l.dropWhile isSpaceCh).reverse.dropWhile isSpaceCh).reverse

/-- Replacement of every maximal run of characters outside a-z 0-9 by a
single underscore, as the regex replace in labelToCol does.  The boolean
records whether the previously emitted character was the underscore. -/
def collapseAux : Bool → Str → Str
  | _, [] => []
  | prevU, c :: rest =>
    if isLowerAlnum c then c :: collapseAux false rest
    else if prevU then collapseAux true rest
    else '_' :: collapseAux true rest

/-- Strip leading and trailing underscores, as the final replace in
labelToCol does. -/
def trimUnderscores (l : Str) : Str :=
  ((l.dropWhile (fun c => c = '_')).reverse.dropWhile (fun c => c = '_')).reverse

/-- labelToCol, identical in all four stage screens: strip accents,
lowercase, turn runs of non-alphanumerics into single underscores, trim
underscores at both ends. -/
def labelToCol (label : Str) : Str :=
  trimUnderscores (collapseAux false ((label.map stripAccent).map jsToLower))

/-- Lookup of a column key in a checks record; a missing key reads as
unchecked, exactly as the double-negation on an absent property does. -/
def lookupCk (checks : List (Str × Bool)) (key : Str) : Bool :=
  match checks with
  | [] => false
  | (k, v) :: rest => if k = key then v else lookupCk rest key

/-- A checklist item as rendered by the stage screens. -/
structure Task where
  label : Str
  done : Bool
deriving DecidableEq, Repr

/-- A catalog section with its ordered tasks. -/
structure Section where
  name : Str
  tasks : List Task
deriving DecidableEq, Repr

/-- A row of the checklist catalog as returned by getCatalogo. -/
structure CatRow where
  seccion : Option Str
  label : Str
  activa : Bool
deriving DecidableEq, Repr

/-- Value of a run of decimal digits, as parseInt reads it. -/
def digitsVal (l : Str) : Nat :=
  l.foldl (fun n c => n * 10 + (c.toNat - 48)) 0

/-- Parse the leading digit run, failing when there is none
(the regex requires at least one digit). -/
def parseDigits (l : Str) : Option Nat :=
  let ds := l.takeWhile isDigitCh
  if ds = [] then none else some (digitsVal ds)

/-- Search for the first match of the pattern fase-whitespace-digits in an
already lowercased string, returning the digit value, as the faseNum
helper of the section sort does. -/
def faseNumAux : Str → Option Nat
  | 'f' :: 'a' :: 's' :: 'e' :: r =>
    match parseDigits (r.dropWhile isSpaceCh) with
    | some n => some n
    | none => faseNumAux ('a' :: 's' :: 'e' :: r)
  | _ :: rest => faseNumAux rest
  | [] => none

/-- faseNum of the stage screens: case-insensitive search of the phase
number embedded in a section name; no match means the section sorts last. -/
def faseNum (name : Str) : Option Nat :=
  faseNumAux (name.map jsToLower)

/-- Lexicographic comparison of character lists. -/
def lexLe : Str → Str → Bool
  | [], _ => true
  | _ :: _, [] => false
  | a :: as, b :: bs => if a = b then lexLe as bs else decide (a < b)

/-- Model of localeCompare with base sensitivity: compare the strings
after removing accents and case. -/
def localeLe (a b : Str) : Bool :=
  lexLe (a.map (fun c => jsToLower (stripAccent c)))
        (b.map (fun c => jsToLower (stripAccent c)))

/-- Comparator of the section sort: ascending phase number, sections
without one last, ties broken by the locale comparison. -/
def secBefore (a b : Str) : Bool :=
  match faseNum a, faseNum b with
  | some fa, some fb => if fa = fb then localeLe a b else decide (fa ≤ fb)
  | some _, none => true
  | none, some _ => false
  | none, none => localeLe a b

/-- Stable insertion of one element into an already sorted list. -/
def insertLe (le : α → α → Bool) (a : α) : List α → List α
  | [] => [a]
  | b :: t => if le b a then b :: insertLe le a t else a :: b :: t

/-- Stable sort by insertion, modelling the stable Array sort. -/
def sortByLe (le : α → α → Bool) : List α → List α
  | [] => []
  | a :: t => insertLe le a (sortByLe le t)

/-- Append a task to the group of its section, creating the group at the
end on first sight, as insertion into the Map of the catalog load does. -/
def addRow (sec : Str) (t : Task) : List (Str × List Task) → List (Str × List Task)
  | [] => [(sec, [t])]
  | (n, ts) :: rest =>
    if n = sec then (n, ts ++ [t]) :: rest else (n, ts) :: addRow sec t rest

/-- Group catalog rows by section, blank sections falling back to the
default section name of the stage. -/
def groupRows (defSec : Str) (rows : List CatRow) : List (Str × List Task) :=
  rows.foldl
    (fun acc r =>
      let s := trimStr (r.seccion.getD [])
      addRow (if s = [] then defSec else s) { label := r.label, done := false } acc)
    []

/-- The catalog load common to the sectioned screens: keep active rows,
group by section, sort the sections. -/
def loadSections (defSec : Str) (rows : List CatRow) : List Section :=
  (sortByLe (fun a b => secBefore a.1 b.1) (groupRows defSec (rows.filter (·.activa)))).map
    (fun p => { name := p.1, tasks := p.2 })

/-- The process name each screen passes to the gateway. -/
inductive Proceso where
  | pintura | chasis | premontaje | montaje
deriving DecidableEq, Repr

/-- Patch sent by actualizarTarea: optional auxiliary fields plus the
column-keyed checks encoded 0 or 1, as buildChecksPatch produces them. -/
structure Patch where
  color : Option Str
  ral : Option Str
  checks : List (Str × Nat)
deriving DecidableEq, Repr

/-- Payload of iniciarTarea: user, area, optional auxiliary fields and the
label-keyed boolean checks. -/
structure StartPayload where
  usuario_id : Nat
  area : Proceso
  bastidor : Option Str
  color : Option Str
  ral : Option Str
  checks : List (Str × Bool)
deriving DecidableEq, Repr

/-- A request issued to the persistence gateway. -/
inductive Op where
  | start (p : StartPayload)
  | update (area : Proceso) (id : Nat) (p : Patch)
  | finalizeOp (area : Proceso) (id : Nat)
deriving DecidableEq, Repr

/-- Oracle for the outcome of the gateway calls a finalize flow issues:
startResp is none on transport error, some r on success where r is the
optional id_area of the response body. -/
structure Gw where
  startResp : Option (Option Nat)
  updateOk : Bool
  finalizeOk : Bool
deriving DecidableEq, Repr

/-- The empty-string-to-null coercion of expressions such as
trim(x) or null. -/
def optOfStr (s : Str) : Option Str :=
  if s = [] then none else some s

namespace Pintura

/-- Buffered pending snapshot of the pintura screen. -/
structure Snapshot where
  color : Option Str
  ral : Option Str
  checks : List (Str × Bool)
  id : Option Nat
deriving DecidableEq, Repr

/-- State of the pintura screen relevant to the reconciliation core. -/
structure State where
  sections : List Section
  colorDescripcion : Str
  colorRAL : Str
  pendingId : Option Nat
  pendingSnapshot : Option Snapshot
  dailyCount : Nat
  showModal : Bool
deriving DecidableEq, Repr

/-- applyPendingIfReady: drain the buffered snapshot into the loaded
catalog; a no-op while either the snapshot or the catalog is missing. -/
def applyPendingIfReady (st : State) : State :=
  match st.pendingSnapshot with
  | none => st
  | some snap =>
    if st.sections = [] then st
    else
      let c := trimStr (snap.color.getD [])
      let r := trimStr (snap.ral.getD [])
      { st with
        colorDescripcion := if c ≠ [] then c else st.colorDescripcion
        colorRAL := if r ≠ [] then r else st.colorRAL
        sections := st.sections.map fun sec =>
          { sec with tasks := sec.tasks.map fun t =>
              { t with done := lookupCk snap.checks (labelToCol t.label) } }
        pendingId := snap.id
        pendingSnapshot := none }

/-- Completion callback of the catalog fetch: group and sort the active
rows into sections, then attempt the drain. -/
def load (rows : List CatRow) (st : State) : State :=
  applyPendingIfReady { st with sections := loadSections "Partes".data rows }

/-- Arrival of a pending snapshot from autoResumeFromUserPending: store it
in the buffer, then attempt the drain. -/
def offer (snap : Snapshot) (st : State) : State :=
  applyPendingIfReady { st with pendingSnapshot := some snap }

/-- Pointwise update of a list at an index, leaving other positions and
out-of-range indices unchanged. -/
def modifyIdx (l : List α) (n : Nat) (f : α → α) : List α :=
  match l, n with
  | [], _ => []
  | a :: t, 0 => f a :: t
  | a :: t, n + 1 => a :: modifyIdx t n f

/-- toggleTask of the pintura screen: flip the done flag of one task. -/
def toggleTask (st : State) (sectionIndex taskIndex : Nat) : State :=
  { st with sections := modifyIdx st.sections sectionIndex fun sec =>
      { sec with tasks := modifyIdx sec.tasks taskIndex fun t =>
          { t with done := !t.done } } }

/-- clearSection: uncheck every task of one section. -/
def clearSection (st : State) (sectionIndex : Nat) : State :=
  { st with sections := modifyIdx st.sections sectionIndex fun sec =>
      { sec with tasks := sec.tasks.map fun t => { t with done := false } } }

/-- clearAll: uncheck everything, clear the color inputs and drop the
pending-record context. -/
def clearAll (st : State) : State :=
  { st with
    sections := st.sections.map fun sec =>
      { sec with tasks := sec.tasks.map fun t => { t with done := false } }
    colorDescripcion := []
    colorRAL := []
    pendingId := none }

/-- Both color inputs filled. -/
def colorInputsComplete (st : State) : Bool :=
  decide (trimStr st.colorDescripcion ≠ []) && decide (trimStr st.colorRAL ≠ [])

/-- sectionComplete of pintura: every task of the section done
(with no non-emptiness requirement in this screen). -/
def sectionComplete (s : Section) : Bool :=
  s.tasks.all (·.done)

/-- allComplete of pintura: some sections, all complete, color inputs
filled. -/
def allComplete (st : State) : Bool :=
  decide (st.sections ≠ []) && st.sections.all sectionComplete &&
    colorInputsComplete st

/-- buildChecksPatch: column-keyed 0 or 1 for every task. -/
def buildChecksPatch (st : State) : List (Str × Nat) :=
  st.sections.flatMap fun sec =>
    sec.tasks.map fun t => (labelToCol t.label, if t.done then 1 else 0)

/-- Label-keyed boolean checks of the iniciarTarea payload. -/
def buildChecksLabels (st : State) : List (Str × Bool) :=
  st.sections.flatMap fun sec => sec.tasks.map fun t => (t.label, t.done)

/-- Shared success continuation of the finalize flow: bump the daily
counter, clear the screen, close the modal. -/
def afterFinish (st : State) : State :=
  { clearAll { st with dailyCount := st.dailyCount + 1 } with showModal := false }

/-- Patch the pending branch of continueAndClear sends: the trimmed color
inputs (empty coerced to null) and the column-keyed checks. -/
def pendingPatch (st : State) : Patch :=
  { color := optOfStr (trimStr st.colorDescripcion)
    ral := optOfStr (trimStr st.colorRAL)
    checks := buildChecksPatch st }

/-- Payload the create branch of continueAndClear sends to iniciarTarea. -/
def startPayload (userId : Nat) (st : State) : StartPayload :=
  { usuario_id := userId, area := .pintura, bastidor := none
    color := optOfStr (trimStr st.colorDescripcion)
    ral := optOfStr (trimStr st.colorRAL)
    checks := buildChecksLabels st }

/-- continueAndClear of pintura, returning the final state, the trace of
gateway requests issued, and whether an error was logged.  With an active
pending id the flow updates by id then finalizes that id; otherwise it
starts a record and finalizes the id the response returns. -/
def continueAndClear (gw : Gw) (userId : Nat) (st : State) :
    State × List Op × Bool :=
  if allComplete st = false then (st, [], false)
  else if userId = 0 then (st, [], false)
  else
    match st.pendingId with
    | some i =>
      if gw.updateOk then
        if gw.finalizeOk then
          (afterFinish st,
            [.update .pintura i (pendingPatch st), .finalizeOp .pintura i], false)
        else (st, [.update .pintura i (pendingPatch st), .finalizeOp .pintura i], true)
      else (st, [.update .pintura i (pendingPatch st)], true)
    | none =>
      match gw.startResp with
      | none => (st, [.start (startPayload userId st)], true)
      | some none => (st, [.start (startPayload userId st)], true)
      | some (some n) =>
        if gw.finalizeOk then
          (afterFinish st, [.start (startPayload userId st), .finalizeOp .pintura n], false)
        else (st, [.start (startPayload userId st), .finalizeOp .pintura n], true)

end Pintura

namespace Premontaje

/-- State of the premontaje screen relevant to the finalize predicate. -/
structure State where
  sections : List Section
  vehicleColorHex : Str
deriving DecidableEq, Repr

/-- sectionComplete of premontaje: at least one task and all done. -/
def sectionComplete (s : Section) : Bool :=
  decide (s.tasks.length > 0) && s.tasks.all (·.done)

/-- allSectionsDone: some sections and each complete. -/
def allSectionsDone (st : State) : Bool :=
  decide (st.sections ≠ []) && st.sections.all sectionComplete

/-- validColor: a color value is selected. -/
def validColor (st : State) : Bool :=
  decide (st.vehicleColorHex ≠ [])

/-- allComplete of premontaje. -/
def allComplete (st : State) : Bool :=
  allSectionsDone st && validColor st

end Premontaje

namespace Chasis

/-- UI states of the VIN input of the chasis screen. -/
inductive VinState where
  | idle | typing | checking | ok | finalized | invalid
deriving DecidableEq, Repr

/-- Buffered checks waiting for the catalog, with the vin and the record
id captured at buffering time. -/
structure BufEntry where
  vin : Str
  checks : List (Str × Bool)
  id : Option Nat
deriving DecidableEq, Repr

/-- State of the chasis screen relevant to the reconciliation core. -/
structure State where
  tasks : List Task
  bastidor : Str
  vinState : VinState
  pendingId : Option Nat
  buffered : Option BufEntry
  dailyCount : Nat
deriving DecidableEq, Repr

/-- VIN normalization of onBastidorInput: uppercase, strip everything
outside A-Z 0-9, truncate to 17 characters. -/
def normalizeVin (value : Str) : Str :=
  ((value.map jsToUpper).filter isVinChar).take 17

/-- The pattern of exactly 17 characters in A-Z 0-9. -/
def matches17 (l : Str) : Bool :=
  decide (l.length = 17) && l.all isVinChar

/-- isValidVin of chasis: the 17-character pattern tested on the
uppercased string. -/
def isValidVin (v : Str) : Bool :=
  if v = [] then false else matches17 (v.map jsToUpper)

/-- Synchronous part of onBastidorInput: store the cleaned vin, reset the
pending id, and either settle on idle or invalid or move to checking; the
boolean says whether the remote status query is issued. -/
def onBastidorInput (st : State) (value : Str) : State × Bool :=
  let clean := normalizeVin value
  let st1 := { st with bastidor := clean, pendingId := none }
  if clean = [] then ({ st1 with vinState := .idle }, false)
  else if isValidVin clean = false then ({ st1 with vinState := .invalid }, false)
  else ({ st1 with vinState := .checking }, true)

/-- Body of the VIN status response of getVinEstadoChasis. -/
inductive VinEstado where
  | free
  | pending (id : Option Nat) (checks : List (Str × Bool))
  | finalized
deriving DecidableEq, Repr

/-- applyPendingChecks: apply the checks to the loaded tasks, or buffer
them (together with the current vin and pending id) while the catalog is
still empty. -/
def applyPendingChecks (st : State) (checks : List (Str × Bool)) : State :=
  if st.tasks = [] then
    { st with buffered := some { vin := st.bastidor, checks := checks, id := st.pendingId } }
  else
    { st with tasks := st.tasks.map fun t =>
        { t with done := lookupCk checks (labelToCol t.label) } }

/-- Completion of the VIN status query: finalized and free map straight to
a vin state, a transport error degrades to invalid, and pending applies
the checks before recording the response id as the pending id. -/
def handleVinResp (st : State) (resp : Except Unit VinEstado) : State :=
  match resp with
  | .error _ => { st with vinState := .invalid }
  | .ok .finalized => { st with vinState := .finalized }
  | .ok (.pending id checks) =>
    let st1 := applyPendingChecks st checks
    { st1 with pendingId := id, vinState := .ok }
  | .ok .free => { st with vinState := .ok }

/-- flushBufferedIfAny: drain the buffered checks into the tasks, taking
the pending id from the buffered entry and settling the vin state on ok.
The deferred revalidation it schedules is an asynchronous callback outside
this synchronous step. -/
def flushBufferedIfAny (st : State) : State :=
  match st.buffered with
  | none => st
  | some b =>
    { st with
      pendingId := b.id
      tasks := st.tasks.map fun t =>
        { t with done := lookupCk b.checks (labelToCol t.label) }
      vinState := .ok
      buffered := none }

/-- Completion callback of the catalog fetch of chasis: normalize the
active rows into the flat task list, then drain any buffered checks. -/
def load (rows : List CatRow) (st : State) : State :=
  flushBufferedIfAny
    { st with tasks := (rows.filter (·.activa)).map fun r => { label := r.label, done := false } }

/-- queueOrApplyChecks: record the pending id and vin, then apply the
checks or buffer them while the catalog is empty. -/
def queueOrApplyChecks (st : State) (vin : Str) (checks : List (Str × Bool))
    (id : Option Nat) : State :=
  let st1 := { st with pendingId := id, bastidor := vin }
  if st1.tasks = [] then
    { st1 with buffered := some { vin := vin, checks := checks, id := id } }
  else applyPendingChecks st1 checks

/-- Synchronous part of consumeSnapshotIfAny once a snapshot was parsed:
store the id, then either settle on idle for a blank vin or queue or apply
the checks and settle on ok.  The deferred revalidation it schedules is an
asynchronous callback outside this synchronous step. -/
def offerSnapshot (st : State) (vin : Str) (checks : List (Str × Bool))
    (id : Option Nat) : State :=
  let st1 := { st with pendingId := id }
  if vin = [] then { st1 with vinState := .idle }
  else { queueOrApplyChecks st1 vin checks id with vinState := .ok }

/-- toggleTask of chasis: flip the done flag of one task. -/
def toggleTask (st : State) (i : Nat) : State :=
  { st with tasks := Pintura.modifyIdx st.tasks i fun t => { t with done := !t.done } }

/-- clearBastidor: reset the vin, its state and the pending id. -/
def clearBastidor (st : State) : State :=
  { st with bastidor := [], vinState := .idle, pendingId := none }

/-- clearAll: uncheck every task and clear the vin. -/
def clearAll (st : State) : State :=
  clearBastidor { st with tasks := st.tasks.map fun t => { t with done := false } }

/-- Number of loaded tasks. -/
def total (st : State) : Nat := st.tasks.length

/-- Number of checked tasks. -/
def doneCount (st : State) : Nat := (st.tasks.filter (·.done)).length

/-- allComplete of chasis: a non-empty catalog with every task checked. -/
def allComplete (st : State) : Bool :=
  decide (total st > 0) && decide (doneCount st = total st)

/-- canFinish of chasis: catalog complete and vin state ok. -/
def canFinish (st : State) : Bool :=
  allComplete st && decide (st.vinState = .ok)

/-- Label-keyed boolean checks of the iniciarTarea payload. -/
def buildChecksPayload (st : State) : List (Str × Bool) :=
  st.tasks.map fun t => (t.label, t.done)

/-- Success continuation of the chasis finalize flow. -/
def afterFinish (st : State) : State :=
  clearAll { st with dailyCount := st.dailyCount + 1 }

/-- Payload both branches of the chasis continueAndClear send to
iniciarTarea: the vin (empty coerced to null) and label-keyed checks. -/
def startPayload (userId : Nat) (st : State) : StartPayload :=
  { usuario_id := userId, area := .chasis, bastidor := optOfStr st.bastidor
    color := none, ral := none, checks := buildChecksPayload st }

/-- continueAndClear of chasis.  Both branches send iniciarTarea; with an
active pending id the flow finalizes the id_area of the response when
present, falling back to the stored pending id. -/
def continueAndClear (gw : Gw) (userId : Nat) (st : State) :
    State × List Op × Bool :=
  if canFinish st = false then (st, [], false)
  else if userId = 0 then (st, [], false)
  else
    match st.pendingId with
    | some i =>
      match gw.startResp with
      | none => (st, [.start (startPayload userId st)], true)
      | some r =>
        if gw.finalizeOk then
          (afterFinish st,
            [.start (startPayload userId st), .finalizeOp .chasis (r.getD i)], false)
        else (st, [.start (startPayload userId st), .finalizeOp .chasis (r.getD i)], true)
    | none =>
      match gw.startResp with
      | none => (st, [.start (startPayload userId st)], true)
      | some none => (st, [.start (startPayload userId st)], true)
      | some (some n) =>
        if gw.finalizeOk then
          (afterFinish st, [.start (startPayload userId st), .finalizeOp .chasis n], false)
        else (st, [.start (startPayload userId st), .finalizeOp .chasis n], true)

end Chasis

namespace Montaje

/-- UI states of the VIN input of the montaje screen. -/
inductive VinStatus where
  | idle | typing | checking | ok | dup | notfound | invalid
deriving DecidableEq, Repr

/-- State of the montaje screen relevant to the vin handling. -/
structure State where
  vinQuery : Str
  selectedBastidor : Str
  vinEnUso : Bool
  vinStatus : VinStatus
  bastidorOptions : List Str
deriving DecidableEq, Repr

/-- VIN normalization of onVinInput: uppercase and strip everything
outside A-Z 0-9; this screen does not truncate. -/
def normalizeVin (value : Str) : Str :=
  (value.map jsToUpper).filter isVinChar

/-- The pattern of one or more characters in A-Z 0-9. -/
def matchesPlus (l : Str) : Bool :=
  decide (l ≠ []) && l.all isVinChar

/-- isValidVin of montaje: only alphanumeric, with no length bound. -/
def isValidVin (v : Str) : Bool :=
  if v = [] then false else matchesPlus (v.map jsToUpper)

/-- inDbList: the uppercased vin is present in the loaded vin list. -/
def inDbList (st : State) (v : Str) : Bool :=
  st.bastidorOptions.contains (v.map jsToUpper)

/-- Synchronous part of onVinInput: clean the input and settle on idle,
notfound or checking; the boolean says whether the availability query is
issued. -/
def onVinInput (st : State) (value : Str) : State × Bool :=
  let clean := normalizeVin value
  let st1 := { st with vinQuery := clean, selectedBastidor := clean, vinEnUso := false }
  if clean = [] then ({ st1 with vinStatus := .idle }, false)
  else if inDbList st1 clean = false then ({ st1 with vinStatus := .notfound }, false)
  else ({ st1 with vinStatus := .checking }, true)

/-- Error handler of the availability query: fail closed to invalid. -/
def handleAvailError (st : State) : State :=
  { st with vinEnUso := false, vinStatus := .invalid }

end Montaje

/-! ### Helper lemmas -/

theorem jsToUpper_id_of_isVinChar {c : Char} (h : isVinChar c = true) :
    jsToUpper c = c := by
  have h2 := of_decide_eq_true h
  have hn : ¬ (97 ≤ c.toNat ∧ c.toNat ≤ 122) := by
    rcases h2 with ⟨a, b⟩ | ⟨a, b⟩ <;> omega
  simp [jsToUpper, hn]

theorem map_id_of_forall {l : List α} {f : α → α} (h : ∀ a ∈ l, f a = a) :
    l.map f = l := by
  induction l with
  | nil => rfl
  | cons a t ih =>
    simp only [List.map_cons, h a (List.mem_cons_self a t)]
    rw [ih fun b hb => h b (List.mem_cons_of_mem a hb)]

theorem all_filter_self (p : α → Bool) (l : List α) :
    (l.filter p).all p = true := by
  rw [List.all_eq_true]
  intro x hx
  exact (List.mem_filter.mp hx).2

theorem all_take_of_all {p : α → Bool} {l : List α} (h : l.all p = true) (n : Nat) :
    (l.take n).all p = true := by
  rw [List.all_eq_true] at h ⊢
  intro x hx
  exact h x (List.take_subset n l hx)

theorem filter_eq_self_of_all {p : α → Bool} {l : List α} (h : l.all p = true) :
    l.filter p = l :=
  List.filter_eq_self.mpr (List.all_eq_true.mp h)

theorem map_jsToUpper_id_of_all {l : Str} (h : l.all isVinChar = true) :
    l.map jsToUpper = l :=
  map_id_of_forall fun c hc => jsToUpper_id_of_isVinChar (List.all_eq_true.mp h c hc)

theorem chasis_normalizeVin_of_all {m : Str} (h : m.all isVinChar = true) :
    Chasis.normalizeVin m = m.take 17 := by
  unfold Chasis.normalizeVin
  rw [map_jsToUpper_id_of_all h, filter_eq_self_of_all h]

theorem montaje_normalizeVin_of_all {m : Str} (h : m.all isVinChar = true) :
    Montaje.normalizeVin m = m := by
  unfold Montaje.normalizeVin
  rw [map_jsToUpper_id_of_all h, filter_eq_self_of_all h]

/-! ### Claim C5 -/

/-- C5 fails as stated: the montaje screen normalizes its VIN input
without the 17-character truncation, so an 18-character alphanumeric
input keeps length 18. -/
theorem c5_counterexample :
    17 < (Montaje.normalizeVin "AAAAAAAAAAAAAAAAAA".data).length := by decide

/-- C5 amended: the chasis normalization (uppercase, strip to A-Z 0-9,
truncate to 17) is idempotent, length-bounded by 17 and produces only
characters in A-Z 0-9; the montaje normalization omits the truncation and
is idempotent and alphanumeric but not length-bounded. -/
theorem c5_vin_normalization_amended (l : Str) :
    Chasis.normalizeVin (Chasis.normalizeVin l) = Chasis.normalizeVin l ∧
    (Chasis.normalizeVin l).length ≤ 17 ∧
    (Chasis.normalizeVin l).all isVinChar = true ∧
    Montaje.normalizeVin (Montaje.normalizeVin l) = Montaje.normalizeVin l ∧
    (Montaje.normalizeVin l).all isVinChar = true := by
  have hallM : (Montaje.normalizeVin l).all isVinChar = true :=
    all_filter_self isVinChar (l.map jsToUpper)
  have hallC : (Chasis.normalizeVin l).all isVinChar = true :=
    all_take_of_all hallM 17
  refine ⟨?_, ?_, hallC, ?_, hallM⟩
  · rw [chasis_normalizeVin_of_all hallC]
    unfold Chasis.normalizeVin
    rw [List.take_take, Nat.min_self]
  · unfold Chasis.normalizeVin
    rw [List.length_take]
    exact Nat.min_le_left _ _
  · rw [montaje_normalizeVin_of_all hallM]

/-! ### Claim C6 -/

/-- C6 fails as stated: the montaje validity predicate accepts any
non-empty alphanumeric string, and the montaje screen issues its remote
availability query for a 3-character input present in the loaded VIN
list even though it fails the 17-character pattern. -/
theorem c6_counterexample :
    Montaje.isValidVin "ABC".data = true ∧
    ("ABC".data).length ≠ 17 ∧
    (Montaje.onVinInput
      { vinQuery := [], selectedBastidor := [], vinEnUso := false,
        vinStatus := .idle, bastidorOptions := ["ABC".data] } "abc".data).2 = true ∧
    Chasis.matches17 (Montaje.normalizeVin "abc".data) = false := by decide

/-- C6 amended: in chasis the remote status query is issued exactly when
the normalized input matches the 17-character alphanumeric pattern; in
montaje the validity predicate accepts every non-empty string whose
uppercase form is alphanumeric, and the availability query is gated by
membership of the normalized input in the loaded VIN list rather than by
the 17-character pattern. -/
theorem c6_vin_validity_amended :
    (∀ (st : Chasis.State) (value : Str),
      (Chasis.onBastidorInput st value).2 = Chasis.matches17 (Chasis.normalizeVin value)) ∧
    (∀ v : Str,
      Montaje.isValidVin v = (decide (v ≠ []) && (v.map jsToUpper).all isVinChar)) ∧
    (∀ (st : Montaje.State) (v : Str),
      (Montaje.onVinInput st v).2 =
        (decide (Montaje.normalizeVin v ≠ []) &&
          Montaje.inDbList st (Montaje.normalizeVin v))) := by
  refine ⟨?_, ?_, ?_⟩
  · intro st value
    unfold Chasis.onBastidorInput
    by_cases hc : Chasis.normalizeVin value = []
    · simp [hc, Chasis.matches17]
    · have hall : (Chasis.normalizeVin value).all isVinChar = true :=
        all_take_of_all (all_filter_self isVinChar _) 17
      have hvalid : Chasis.isValidVin (Chasis.normalizeVin value)
          = Chasis.matches17 (Chasis.normalizeVin value) := by
        unfold Chasis.isValidVin
        rw [if_neg hc, map_jsToUpper_id_of_all hall]
      by_cases hv : Chasis.isValidVin (Chasis.normalizeVin value) = false
      · simp [hc, hv, ← hvalid]
      · simp only [Bool.not_eq_false] at hv
        simp [hc, hv, ← hvalid]
  · intro v
    unfold Montaje.isValidVin Montaje.matchesPlus
    by_cases hv : v = []
    · simp [hv]
    · have : v.map jsToUpper ≠ [] := by
        simpa [List.map_eq_nil_iff] using hv
      simp [hv, this]
  · intro st v
    simp only [Montaje.onVinInput, Montaje.inDbList]
    by_cases hc : Montaje.normalizeVin v = []
    · simp [hc]
    · by_cases hd : st.bastidorOptions.contains ((Montaje.normalizeVin v).map jsToUpper) = true
      · have hm : (Montaje.normalizeVin v).map jsToUpper ∈ st.bastidorOptions := by
          simpa using hd
        simp [hc, hm]
      · simp only [Bool.not_eq_true] at hd
        have hm : ¬ (Montaje.normalizeVin v).map jsToUpper ∈ st.bastidorOptions := by
          simpa using hd
        simp [hc, hm]

/-! ### Claim C9 -/

/-- C9: a transport error on the identifier status query always settles
the identifier state on invalid (never ok), in both the chasis and the
montaje screens. -/
theorem c9_transport_error_fail_closed (cst : Chasis.State) (mst : Montaje.State) :
    (Chasis.handleVinResp cst (.error ())).vinState = Chasis.VinState.invalid ∧
    (Chasis.handleVinResp cst (.error ())).vinState ≠ Chasis.VinState.ok ∧
    (Montaje.handleAvailError mst).vinStatus = Montaje.VinStatus.invalid ∧
    (Montaje.handleAvailError mst).vinStatus ≠ Montaje.VinStatus.ok := by
  refine ⟨rfl, by simp [Chasis.handleVinResp], rfl, by simp [Montaje.handleAvailError]⟩

/-! ### Claim C2 -/

theorem mem_insertLe {le : α → α → Bool} {a x : α} {l : List α} :
    x ∈ insertLe le a l ↔ x = a ∨ x ∈ l := by
  induction l with
  | nil => simp [insertLe]
  | cons b t ih =>
    unfold insertLe
    by_cases h : le b a = true
    · simp [h, ih]
      tauto
    · simp only [Bool.not_eq_true] at h
      simp [h]

theorem mem_sortByLe {le : α → α → Bool} {x : α} {l : List α} :
    x ∈ sortByLe le l ↔ x ∈ l := by
  induction l with
  | nil => simp [sortByLe]
  | cons a t ih =>
    unfold sortByLe
    rw [mem_insertLe, ih]
    simp

theorem addRow_nonempty {sec : Str} {t : Task} {acc : List (Str × List Task)}
    (h : ∀ q ∈ acc, q.2 ≠ []) : ∀ q ∈ addRow sec t acc, q.2 ≠ [] := by
  induction acc with
  | nil =>
    intro q hq
    simp [addRow] at hq
    simp [hq]
  | cons p rest ih =>
    intro q hq
    unfold addRow at hq
    by_cases he : p.1 = sec
    · rw [show ((p.1, p.2 ++ [t]) :: rest) = _ from rfl] at hq
      simp [he] at hq
      rcases hq with hq | hq
      · simp [hq]
      · exact h q (List.mem_cons_of_mem _ hq)
    · simp [he] at hq
      rcases hq with hq | hq
      · exact h q (hq ▸ List.mem_cons_self p rest)
      · exact ih (fun r hr => h r (List.mem_cons_of_mem _ hr)) q hq

theorem groupRows_foldl_nonempty (defSec : Str) (rows : List CatRow)
    (acc : List (Str × List Task)) (hacc : ∀ q ∈ acc, q.2 ≠ []) :
    ∀ q ∈ rows.foldl
      (fun acc r =>
        let s := trimStr (r.seccion.getD [])
        addRow (if s = [] then defSec else s) { label := r.label, done := false } acc)
      acc, q.2 ≠ [] := by
  induction rows generalizing acc with
  | nil => exact hacc
  | cons r rest ih =>
    intro q hq
    exact ih _ (addRow_nonempty hacc) q hq

theorem loadSections_nonempty {defSec : Str} {rows : List CatRow} :
    ∀ sec ∈ loadSections defSec rows, sec.tasks ≠ [] := by
  intro sec hsec
  unfold loadSections at hsec
  rcases List.mem_map.mp hsec with ⟨p, hp, hpe⟩
  have hg : p ∈ groupRows defSec (rows.filter (·.activa)) := mem_sortByLe.mp hp
  have : p.2 ≠ [] :=
    groupRows_foldl_nonempty defSec (rows.filter (·.activa)) [] (by simp) p hg
  rw [← hpe]
  exact this

/-- C2: finalize readiness is false whenever a section is empty or an
item is unchecked.  In premontaje an empty section directly falsifies
sectionComplete; in pintura an unchecked item falsifies allComplete, and
the catalog load never produces an empty section (each section of a
loaded catalog is created with its first item), so the zero-item case
cannot arise from a loaded catalog. -/
theorem c2_readiness_requires_full_sections :
    (∀ (st : Premontaje.State) (sec : Section), sec ∈ st.sections →
        (sec.tasks = [] ∨ ∃ t ∈ sec.tasks, t.done = false) →
        Premontaje.allComplete st = false) ∧
    (∀ (st : Pintura.State) (sec : Section) (t : Task), sec ∈ st.sections →
        t ∈ sec.tasks → t.done = false → Pintura.allComplete st = false) ∧
    (∀ (defSec : Str) (rows : List CatRow) (sec : Section),
        sec ∈ loadSections defSec rows → sec.tasks ≠ []) := by
  refine ⟨?_, ?_, fun defSec rows sec h => loadSections_nonempty sec h⟩
  · intro st sec hmem hcase
    have hsc : Premontaje.sectionComplete sec = false := by
      rcases hcase with he | ⟨t, ht, hd⟩
      · simp [Premontaje.sectionComplete, he]
      · unfold Premontaje.sectionComplete
        have : sec.tasks.all (·.done) = false := by
          rw [Bool.eq_false_iff]
          intro hall
          have := List.all_eq_true.mp hall t ht
          rw [hd] at this
          exact Bool.false_ne_true this
        simp [this]
    have hall : st.sections.all Premontaje.sectionComplete = false := by
      rw [Bool.eq_false_iff]
      intro hal
      have := List.all_eq_true.mp hal sec hmem
      rw [hsc] at this
      exact Bool.false_ne_true this
    simp [Premontaje.allComplete, Premontaje.allSectionsDone, hall]
  · intro st sec t hmem ht hd
    have hsc : Pintura.sectionComplete sec = false := by
      unfold Pintura.sectionComplete
      rw [Bool.eq_false_iff]
      intro hall
      have := List.all_eq_true.mp hall t ht
      rw [hd] at this
      exact Bool.false_ne_true this
    have hall : st.sections.all Pintura.sectionComplete = false := by
      rw [Bool.eq_false_iff]
      intro hal
      have := List.all_eq_true.mp hal sec hmem
      rw [hsc] at this
      exact Bool.false_ne_true this
    simp [Pintura.allComplete, hall]

/-- Witness for C2 at concrete states: a premontaje state with one empty
section and a filled color, a pintura state with one unchecked item and
both color inputs filled, and a one-row catalog load. -/
theorem c2_readiness_witness :
    Premontaje.allComplete
      { sections := [{ name := "s".data, tasks := [] }], vehicleColorHex := "x".data }
        = false ∧
    Pintura.allComplete
      { sections := [{ name := "s".data, tasks := [{ label := "a".data, done := false }] }],
        colorDescripcion := "x".data, colorRAL := "y".data, pendingId := none,
        pendingSnapshot := none, dailyCount := 0, showModal := false } = false ∧
    ({ name := "Partes".data, tasks := [{ label := "a".data, done := false }] } : Section).tasks
        ≠ [] := by
  refine ⟨?_, ?_, ?_⟩
  · exact c2_readiness_requires_full_sections.1 _
      { name := "s".data, tasks := [] } (by simp) (Or.inl rfl)
  · exact c2_readiness_requires_full_sections.2.1 _
      { name := "s".data, tasks := [{ label := "a".data, done := false }] }
      { label := "a".data, done := false } (by simp) (by simp) rfl
  · exact c2_readiness_requires_full_sections.2.2 "Partes".data
      [{ seccion := none, label := "a".data, activa := true }]
      { name := "Partes".data, tasks := [{ label := "a".data, done := false }] }
      (by decide)

/-! ### Claim C4 -/

theorem toggleTask_vinState (st : Chasis.State) (i : Nat) :
    (Chasis.toggleTask st i).vinState = st.vinState := rfl

theorem foldl_toggleTask_vinState (acts : List Nat) (st : Chasis.State) :
    (acts.foldl Chasis.toggleTask st).vinState = st.vinState := by
  induction acts generalizing st with
  | nil => rfl
  | cons a t ih => rw [List.foldl_cons, ih, toggleTask_vinState]

/-- C4: once the status query answered finalized, the identifier state is
finalized and stays finalized under every sequence of local item toggles,
and canFinish stays false throughout. -/
theorem c4_finalized_terminal (st : Chasis.State) (acts : List Nat) :
    (acts.foldl Chasis.toggleTask (Chasis.handleVinResp st (.ok .finalized))).vinState
        = Chasis.VinState.finalized ∧
    Chasis.canFinish (acts.foldl Chasis.toggleTask (Chasis.handleVinResp st (.ok .finalized)))
        = false := by
  have hstate :
      (acts.foldl Chasis.toggleTask (Chasis.handleVinResp st (.ok .finalized))).vinState
        = Chasis.VinState.finalized := by
    rw [foldl_toggleTask_vinState]
    rfl
  refine ⟨hstate, ?_⟩
  unfold Chasis.canFinish
  rw [hstate]
  simp

/-! ### Claim C7 -/

/-- C7: with no active pending id, a confirmed finalize issues
iniciarTarea and then finalizarTarea with the id_area returned by the
start response; when the start call succeeds without an id, an error is
logged, no finalize request is issued and the state is untouched.  Both
the pintura and the chasis create branches behave this way. -/
theorem c7_start_then_finalize :
    (∀ (gw : Gw) (uid : Nat) (st : Pintura.State),
      st.pendingId = none → Pintura.allComplete st = true → uid ≠ 0 →
      (gw.startResp = none →
        (Pintura.continueAndClear gw uid st).2.1 = [Op.start (Pintura.startPayload uid st)] ∧
        (Pintura.continueAndClear gw uid st).2.2 = true ∧
        (Pintura.continueAndClear gw uid st).1 = st) ∧
      (gw.startResp = some none →
        (Pintura.continueAndClear gw uid st).2.1 = [Op.start (Pintura.startPayload uid st)] ∧
        (Pintura.continueAndClear gw uid st).2.2 = true ∧
        (Pintura.continueAndClear gw uid st).1 = st) ∧
      (∀ n, gw.startResp = some (some n) →
        (Pintura.continueAndClear gw uid st).2.1
          = [Op.start (Pintura.startPayload uid st), Op.finalizeOp .pintura n])) ∧
    (∀ (gw : Gw) (uid : Nat) (st : Chasis.State),
      st.pendingId = none → Chasis.canFinish st = true → uid ≠ 0 →
      (gw.startResp = none →
        (Chasis.continueAndClear gw uid st).2.1 = [Op.start (Chasis.startPayload uid st)] ∧
        (Chasis.continueAndClear gw uid st).2.2 = true ∧
        (Chasis.continueAndClear gw uid st).1 = st) ∧
      (gw.startResp = some none →
        (Chasis.continueAndClear gw uid st).2.1 = [Op.start (Chasis.startPayload uid st)] ∧
        (Chasis.continueAndClear gw uid st).2.2 = true ∧
        (Chasis.continueAndClear gw uid st).1 = st) ∧
      (∀ n, gw.startResp = some (some n) →
        (Chasis.continueAndClear gw uid st).2.1
          = [Op.start (Chasis.startPayload uid st), Op.finalizeOp .chasis n])) := by
  constructor
  · intro gw uid st hpid hcomp huid
    refine ⟨?_, ?_, ?_⟩
    · intro hresp
      simp [Pintura.continueAndClear, hcomp, huid, hpid, hresp]
    · intro hresp
      simp [Pintura.continueAndClear, hcomp, huid, hpid, hresp]
    · intro n hresp
      cases hfin : gw.finalizeOk <;>
        simp [Pintura.continueAndClear, hcomp, huid, hpid, hresp, hfin]
  · intro gw uid st hpid hcomp huid
    refine ⟨?_, ?_, ?_⟩
    · intro hresp
      simp [Chasis.continueAndClear, hcomp, huid, hpid, hresp]
    · intro hresp
      simp [Chasis.continueAndClear, hcomp, huid, hpid, hresp]
    · intro n hresp
      cases hfin : gw.finalizeOk <;>
        simp [Chasis.continueAndClear, hcomp, huid, hpid, hresp, hfin]

/-- Concrete pintura state for the C7 and C8 witnesses: one fully checked
section, both color inputs filled, no pending id. -/
def c7wPintura : Pintura.State :=
  { sections := [{ name := "s".data, tasks := [{ label := "a".data, done := true }] }],
    colorDescripcion := "x".data, colorRAL := "y".data, pendingId := none,
    pendingSnapshot := none, dailyCount := 0, showModal := true }

/-- Concrete chasis state for the C7 witness: one checked task, vin state
ok, no pending id. -/
def c7wChasis : Chasis.State :=
  { tasks := [{ label := "a".data, done := true }], bastidor := "B".data,
    vinState := .ok, pendingId := none, buffered := none, dailyCount := 0 }

/-- Witness for C7: the start-without-id outcome leaves the state alone
and issues no finalize, and the start-with-id outcome finalizes id 4. -/
theorem c7_start_then_finalize_witness :
    ((Pintura.continueAndClear { startResp := some none, updateOk := true, finalizeOk := true }
        1 c7wPintura).2.1 = [Op.start (Pintura.startPayload 1 c7wPintura)] ∧
      (Pintura.continueAndClear { startResp := some none, updateOk := true, finalizeOk := true }
        1 c7wPintura).2.2 = true ∧
      (Pintura.continueAndClear { startResp := some none, updateOk := true, finalizeOk := true }
        1 c7wPintura).1 = c7wPintura) ∧
    (Chasis.continueAndClear { startResp := some (some 4), updateOk := true, finalizeOk := true }
        1 c7wChasis).2.1
      = [Op.start (Chasis.startPayload 1 c7wChasis), Op.finalizeOp .chasis 4] :=
  ⟨(c7_start_then_finalize.1
      { startResp := some none, updateOk := true, finalizeOk := true } 1 c7wPintura
      rfl (by decide) (by decide)).2.1 rfl,
   (c7_start_then_finalize.2
      { startResp := some (some 4), updateOk := true, finalizeOk := true } 1 c7wChasis
      rfl (by decide) (by decide)).2.2 4 rfl⟩

/-! ### Claim C8 -/

/-- C8: on finalize success the daily counter is incremented by one and
the checklist, auxiliary inputs, identifier state and pending id are
reset; on any failure of the update, start or finalize calls, the state
(counter included) is exactly unchanged and an error is surfaced. -/
theorem c8_counter_and_reset :
    (∀ (gw : Gw) (uid : Nat) (st : Pintura.State),
      Pintura.allComplete st = true → uid ≠ 0 →
      (∀ i, st.pendingId = some i → gw.updateOk = true → gw.finalizeOk = true →
        (Pintura.continueAndClear gw uid st).1.dailyCount = st.dailyCount + 1 ∧
        (Pintura.continueAndClear gw uid st).1.sections
          = st.sections.map (fun sec =>
              { sec with tasks := sec.tasks.map fun t => { t with done := false } }) ∧
        (Pintura.continueAndClear gw uid st).1.colorDescripcion = [] ∧
        (Pintura.continueAndClear gw uid st).1.colorRAL = [] ∧
        (Pintura.continueAndClear gw uid st).1.pendingId = none ∧
        (Pintura.continueAndClear gw uid st).2.2 = false) ∧
      (∀ i, st.pendingId = some i → gw.updateOk = false ∨ gw.finalizeOk = false →
        (Pintura.continueAndClear gw uid st).1 = st ∧
        (Pintura.continueAndClear gw uid st).2.2 = true) ∧
      (st.pendingId = none → ∀ n, gw.startResp = some (some n) → gw.finalizeOk = true →
        (Pintura.continueAndClear gw uid st).1.dailyCount = st.dailyCount + 1 ∧
        (Pintura.continueAndClear gw uid st).1.sections
          = st.sections.map (fun sec =>
              { sec with tasks := sec.tasks.map fun t => { t with done := false } }) ∧
        (Pintura.continueAndClear gw uid st).1.colorDescripcion = [] ∧
        (Pintura.continueAndClear gw uid st).1.colorRAL = [] ∧
        (Pintura.continueAndClear gw uid st).1.pendingId = none ∧
        (Pintura.continueAndClear gw uid st).2.2 = false) ∧
      (st.pendingId = none →
        gw.startResp = none ∨ gw.startResp = some none ∨ gw.finalizeOk = false →
        (Pintura.continueAndClear gw uid st).1 = st ∧
        (Pintura.continueAndClear gw uid st).2.2 = true)) ∧
    (∀ (gw : Gw) (uid : Nat) (st : Chasis.State),
      Chasis.canFinish st = true → uid ≠ 0 →
      (∀ i, st.pendingId = some i → ∀ r, gw.startResp = some r → gw.finalizeOk = true →
        (Chasis.continueAndClear gw uid st).1.dailyCount = st.dailyCount + 1 ∧
        (Chasis.continueAndClear gw uid st).1.tasks
          = st.tasks.map (fun t => { t with done := false }) ∧
        (Chasis.continueAndClear gw uid st).1.bastidor = [] ∧
        (Chasis.continueAndClear gw uid st).1.vinState = Chasis.VinState.idle ∧
        (Chasis.continueAndClear gw uid st).1.pendingId = none ∧
        (Chasis.continueAndClear gw uid st).2.2 = false) ∧
      (∀ i, st.pendingId = some i → gw.startResp = none ∨ gw.finalizeOk = false →
        (Chasis.continueAndClear gw uid st).1 = st ∧
        (Chasis.continueAndClear gw uid st).2.2 = true) ∧
      (st.pendingId = none → ∀ n, gw.startResp = some (some n) → gw.finalizeOk = true →
        (Chasis.continueAndClear gw uid st).1.dailyCount = st.dailyCount + 1 ∧
        (Chasis.continueAndClear gw uid st).1.tasks
          = st.tasks.map (fun t => { t with done := false }) ∧
        (Chasis.continueAndClear gw uid st).1.bastidor = [] ∧
        (Chasis.continueAndClear gw uid st).1.vinState = Chasis.VinState.idle ∧
        (Chasis.continueAndClear gw uid st).1.pendingId = none ∧
        (Chasis.continueAndClear gw uid st).2.2 = false) ∧
      (st.pendingId = none →
        gw.startResp = none ∨ gw.startResp = some none ∨ gw.finalizeOk = false →
        (Chasis.continueAndClear gw uid st).1 = st ∧
        (Chasis.continueAndClear gw uid st).2.2 = true)) := by
  constructor
  · intro gw uid st hcomp huid
    refine ⟨?_, ?_, ?_, ?_⟩
    · intro i hpid hupd hfin
      simp [Pintura.continueAndClear, hcomp, huid, hpid, hupd, hfin,
        Pintura.afterFinish, Pintura.clearAll]
    · intro i hpid hfail
      rcases hfail with hupd | hfin
      · simp [Pintura.continueAndClear, hcomp, huid, hpid, hupd]
      · cases hupd : gw.updateOk <;>
          simp [Pintura.continueAndClear, hcomp, huid, hpid, hupd, hfin]
    · intro hpid n hresp hfin
      simp [Pintura.continueAndClear, hcomp, huid, hpid, hresp, hfin,
        Pintura.afterFinish, Pintura.clearAll]
    · intro hpid hfail
      rcases hfail with hresp | hresp | hfin
      · simp [Pintura.continueAndClear, hcomp, huid, hpid, hresp]
      · simp [Pintura.continueAndClear, hcomp, huid, hpid, hresp]
      · cases hresp : gw.startResp with
        | none => simp [Pintura.continueAndClear, hcomp, huid, hpid, hresp]
        | some r =>
          cases r with
          | none => simp [Pintura.continueAndClear, hcomp, huid, hpid, hresp]
          | some n => simp [Pintura.continueAndClear, hcomp, huid, hpid, hresp, hfin]
  · intro gw uid st hcomp huid
    refine ⟨?_, ?_, ?_, ?_⟩
    · intro i hpid r hresp hfin
      simp [Chasis.continueAndClear, hcomp, huid, hpid, hresp, hfin,
        Chasis.afterFinish, Chasis.clearAll, Chasis.clearBastidor]
    · intro i hpid hfail
      rcases hfail with hresp | hfin
      · simp [Chasis.continueAndClear, hcomp, huid, hpid, hresp]
      · cases hresp : gw.startResp with
        | none => simp [Chasis.continueAndClear, hcomp, huid, hpid, hresp]
        | some r => simp [Chasis.continueAndClear, hcomp, huid, hpid, hresp, hfin]
    · intro hpid n hresp hfin
      simp [Chasis.continueAndClear, hcomp, huid, hpid, hresp, hfin,
        Chasis.afterFinish, Chasis.clearAll, Chasis.clearBastidor]
    · intro hpid hfail
      rcases hfail with hresp | hresp | hfin
      · simp [Chasis.continueAndClear, hcomp, huid, hpid, hresp]
      · simp [Chasis.continueAndClear, hcomp, huid, hpid, hresp]
      · cases hresp : gw.startResp with
        | none => simp [Chasis.continueAndClear, hcomp, huid, hpid, hresp]
        | some r =>
          cases r with
          | none => simp [Chasis.continueAndClear, hcomp, huid, hpid, hresp]
          | some n => simp [Chasis.continueAndClear, hcomp, huid, hpid, hresp, hfin]

/-- Concrete pintura state with an active pending id for the C8
witness. -/
def c8wPintura : Pintura.State :=
  { sections := [{ name := "s".data, tasks := [{ label := "a".data, done := true }] }],
    colorDescripcion := "x".data, colorRAL := "y".data, pendingId := some 9,
    pendingSnapshot := none, dailyCount := 3, showModal := true }

/-- Witness for C8: a successful pending-id finalize bumps the counter of
a concrete pintura state from 3 to 4 and resets the inputs, while a
failing update leaves the state exactly unchanged with an error. -/
theorem c8_counter_and_reset_witness :
    (Pintura.continueAndClear { startResp := none, updateOk := true, finalizeOk := true }
        1 c8wPintura).1.dailyCount = c8wPintura.dailyCount + 1 ∧
    (Pintura.continueAndClear { startResp := none, updateOk := true, finalizeOk := true }
        1 c8wPintura).1.colorDescripcion = [] ∧
    (Pintura.continueAndClear { startResp := none, updateOk := false, finalizeOk := true }
        1 c8wPintura).1 = c8wPintura ∧
    (Pintura.continueAndClear { startResp := none, updateOk := false, finalizeOk := true }
        1 c8wPintura).2.2 = true :=
  ⟨((c8_counter_and_reset.1 { startResp := none, updateOk := true, finalizeOk := true }
      1 c8wPintura (by decide) (by decide)).1 9 rfl rfl rfl).1,
   ((c8_counter_and_reset.1 { startResp := none, updateOk := true, finalizeOk := true }
      1 c8wPintura (by decide) (by decide)).1 9 rfl rfl rfl).2.2.1,
   ((c8_counter_and_reset.1 { startResp := none, updateOk := false, finalizeOk := true }
      1 c8wPintura (by decide) (by decide)).2.1 9 rfl (Or.inl rfl)).1,
   ((c8_counter_and_reset.1 { startResp := none, updateOk := false, finalizeOk := true }
      1 c8wPintura (by decide) (by decide)).2.1 9 rfl (Or.inl rfl)).2⟩

/-! ### Claim C3 -/

/-- Recognizer of start requests in a trace. -/
def isStartOp : Op → Bool
  | .start _ => true
  | _ => false

/-- Recognizer of update requests in a trace. -/
def isUpdateOp : Op → Bool
  | .update _ _ _ => true
  | _ => false

/-- Concrete chasis state with an active pending id, used by the C3
counterexample and witness. -/
def c3xChasis : Chasis.State :=
  { tasks := [{ label := "a".data, done := true }], bastidor := "B".data,
    vinState := .ok, pendingId := some 5, buffered := none, dailyCount := 0 }

/-- C3 fails as stated on the chasis screen: with active pending id 5 and
an upsert response carrying id_area 7, the confirmed finalize issues the
start (create) request rather than an update, sends no request addressed
to id 5, and finalizes id 7 instead of the pending id. -/
theorem c3_counterexample :
    Chasis.canFinish c3xChasis = true ∧
    c3xChasis.pendingId = some 5 ∧
    (Chasis.continueAndClear
      { startResp := some (some 7), updateOk := true, finalizeOk := true }
      1 c3xChasis).2.1.any isStartOp = true ∧
    (Chasis.continueAndClear
      { startResp := some (some 7), updateOk := true, finalizeOk := true }
      1 c3xChasis).2.1.all (fun o => !isUpdateOp o) = true ∧
    (Chasis.continueAndClear
      { startResp := some (some 7), updateOk := true, finalizeOk := true }
      1 c3xChasis).2.1.contains (Op.finalizeOp .chasis 5) = false := by decide

/-- C3 amended: in pintura (premontaje is structurally identical) a
finalize confirmed with an active pending id sends the update patch with
the current checklist and auxiliary state to that id and then the
finalize for that same id, and never issues a start request; in chasis
the same situation instead sends the start (upsert) payload, which
carries no record id, and then finalizes the id_area of the upsert
response, falling back to the stored pending id only when the response
carries none. -/
theorem c3_pending_update_amended :
    (∀ (gw : Gw) (uid : Nat) (st : Pintura.State) (i : Nat),
      st.pendingId = some i → Pintura.allComplete st = true → uid ≠ 0 →
      ((Pintura.continueAndClear gw uid st).2.1.head?
          = some (Op.update .pintura i (Pintura.pendingPatch st))) ∧
      (∀ p, Op.start p ∉ (Pintura.continueAndClear gw uid st).2.1) ∧
      (gw.updateOk = true →
        (Pintura.continueAndClear gw uid st).2.1
          = [Op.update .pintura i (Pintura.pendingPatch st), Op.finalizeOp .pintura i]) ∧
      (gw.updateOk = false →
        (Pintura.continueAndClear gw uid st).2.1
          = [Op.update .pintura i (Pintura.pendingPatch st)])) ∧
    (∀ (gw : Gw) (uid : Nat) (st : Chasis.State) (i : Nat),
      st.pendingId = some i → Chasis.canFinish st = true → uid ≠ 0 →
      ((Chasis.continueAndClear gw uid st).2.1.head?
          = some (Op.start (Chasis.startPayload uid st))) ∧
      (gw.startResp = none →
        (Chasis.continueAndClear gw uid st).2.1
          = [Op.start (Chasis.startPayload uid st)]) ∧
      (∀ r, gw.startResp = some r →
        (Chasis.continueAndClear gw uid st).2.1
          = [Op.start (Chasis.startPayload uid st), Op.finalizeOp .chasis (r.getD i)])) := by
  constructor
  · intro gw uid st i hpid hcomp huid
    refine ⟨?_, ?_, ?_, ?_⟩
    · cases hupd : gw.updateOk <;> cases hfin : gw.finalizeOk <;>
        simp [Pintura.continueAndClear, hcomp, huid, hpid, hupd, hfin]
    · intro p
      cases hupd : gw.updateOk <;> cases hfin : gw.finalizeOk <;>
        simp [Pintura.continueAndClear, hcomp, huid, hpid, hupd, hfin]
    · intro hupd
      cases hfin : gw.finalizeOk <;>
        simp [Pintura.continueAndClear, hcomp, huid, hpid, hupd, hfin]
    · intro hupd
      simp [Pintura.continueAndClear, hcomp, huid, hpid, hupd]
  · intro gw uid st i hpid hcomp huid
    refine ⟨?_, ?_, ?_⟩
    · cases hresp : gw.startResp with
      | none => simp [Chasis.continueAndClear, hcomp, huid, hpid, hresp]
      | some r =>
        cases hfin : gw.finalizeOk <;>
          simp [Chasis.continueAndClear, hcomp, huid, hpid, hresp, hfin]
    · intro hresp
      simp [Chasis.continueAndClear, hcomp, huid, hpid, hresp]
    · intro r hresp
      cases hfin : gw.finalizeOk <;>
        simp [Chasis.continueAndClear, hcomp, huid, hpid, hresp, hfin]

/-- Concrete pintura state with an active pending id for the C3
witness. -/
def c3wPintura : Pintura.State :=
  { sections := [{ name := "s".data, tasks := [{ label := "a".data, done := true }] }],
    colorDescripcion := "x".data, colorRAL := "y".data, pendingId := some 9,
    pendingSnapshot := none, dailyCount := 0, showModal := true }

/-- Witness for the amended C3: the pintura pending branch updates id 9
then finalizes id 9, while the chasis pending branch starts and then
finalizes the response id 7. -/
theorem c3_pending_update_witness :
    (Pintura.continueAndClear { startResp := none, updateOk := true, finalizeOk := true }
        1 c3wPintura).2.1
      = [Op.update .pintura 9 (Pintura.pendingPatch c3wPintura),
         Op.finalizeOp .pintura 9] ∧
    (Chasis.continueAndClear
        { startResp := some (some 7), updateOk := true, finalizeOk := true } 1 c3xChasis).2.1
      = [Op.start (Chasis.startPayload 1 c3xChasis), Op.finalizeOp .chasis 7] :=
  ⟨(c3_pending_update_amended.1
      { startResp := none, updateOk := true, finalizeOk := true } 1 c3wPintura 9
      rfl (by decide) (by decide)).2.2.1 rfl,
   (c3_pending_update_amended.2
      { startResp := some (some 7), updateOk := true, finalizeOk := true } 1 c3xChasis 5
      rfl (by decide) (by decide)).2.2 (some 7) rfl⟩

/-! ### Claim C1 -/

theorem applyPendingIfReady_of_none {st : Pintura.State}
    (h : st.pendingSnapshot = none) :
    Pintura.applyPendingIfReady st = st := by
  unfold Pintura.applyPendingIfReady
  simp [h]

theorem flushBufferedIfAny_of_none {st : Chasis.State}
    (h : st.buffered = none) :
    Chasis.flushBufferedIfAny st = st := by
  unfold Chasis.flushBufferedIfAny
  simp [h]

/-- Concrete chasis state for the C1 counterexample: empty catalog, a vin
typed and being checked, nothing buffered. -/
def c1xChasis : Chasis.State :=
  { tasks := [], bastidor := "B".data, vinState := .checking,
    pendingId := none, buffered := none, dailyCount := 0 }

/-- Catalog rows for the C1 counterexample. -/
def c1xRows : List CatRow :=
  [{ seccion := none, label := "a".data, activa := true }]

/-- C1 fails as stated on the chasis VIN-status path: when the pending
response (record id 5) arrives before the catalog, the entry is buffered
with the pending id read before the response id is recorded, so the drain
resets the active pending id to none; with the catalog first, the id ends
up 5.  The checklist completion state itself agrees in both orders. -/
theorem c1_counterexample :
    (Chasis.load c1xRows (Chasis.handleVinResp c1xChasis
        (.ok (.pending (some 5) [("a".data, true)])))).tasks
      = (Chasis.handleVinResp (Chasis.load c1xRows c1xChasis)
        (.ok (.pending (some 5) [("a".data, true)]))).tasks ∧
    (Chasis.load c1xRows (Chasis.handleVinResp c1xChasis
        (.ok (.pending (some 5) [("a".data, true)])))).pendingId = none ∧
    (Chasis.handleVinResp (Chasis.load c1xRows c1xChasis)
        (.ok (.pending (some 5) [("a".data, true)]))).pendingId = some 5 := by decide

/-- C1 amended: the pintura engine (the pattern premontaje and montaje
share) is order-independent and its drain is idempotent: offering the
snapshot before or after the catalog load yields the same state, and
repeated drains are no-ops.  The chasis snapshot (Pendientes) path
commutes as well for a non-empty catalog, and its drain is idempotent.
In the chasis VIN-status pending path the completion state is
order-independent, but the active pending id is only the response id when
the catalog was already loaded; when the response arrives first, the
buffered entry captures the pending id as it was before the response id
was recorded, and the drain installs that stale value. -/
theorem c1_order_independence_amended :
    (∀ (st : Pintura.State) (rows : List CatRow) (snap : Pintura.Snapshot),
      st.sections = [] → st.pendingSnapshot = none →
      Pintura.offer snap (Pintura.load rows st)
        = Pintura.load rows (Pintura.offer snap st)) ∧
    (∀ st : Pintura.State,
      Pintura.applyPendingIfReady (Pintura.applyPendingIfReady st)
        = Pintura.applyPendingIfReady st) ∧
    (∀ (st : Chasis.State) (rows : List CatRow) (vin : Str)
        (checks : List (Str × Bool)) (id : Option Nat),
      st.tasks = [] → st.buffered = none → vin ≠ [] →
      rows.filter (·.activa) ≠ [] →
      Chasis.load rows (Chasis.offerSnapshot st vin checks id)
        = Chasis.offerSnapshot (Chasis.load rows st) vin checks id) ∧
    (∀ st : Chasis.State,
      Chasis.flushBufferedIfAny (Chasis.flushBufferedIfAny st)
        = Chasis.flushBufferedIfAny st) ∧
    (∀ (st : Chasis.State) (rows : List CatRow) (id : Option Nat)
        (checks : List (Str × Bool)),
      st.tasks = [] → st.buffered = none → rows.filter (·.activa) ≠ [] →
      (Chasis.load rows (Chasis.handleVinResp st (.ok (.pending id checks)))).tasks
        = (Chasis.handleVinResp (Chasis.load rows st) (.ok (.pending id checks))).tasks ∧
      (Chasis.load rows (Chasis.handleVinResp st (.ok (.pending id checks)))).pendingId
        = st.pendingId ∧
      (Chasis.handleVinResp (Chasis.load rows st) (.ok (.pending id checks))).pendingId
        = id ∧
      (Chasis.load rows (Chasis.handleVinResp st (.ok (.pending id checks)))).vinState
        = Chasis.VinState.ok ∧
      (Chasis.handleVinResp (Chasis.load rows st) (.ok (.pending id checks))).vinState
        = Chasis.VinState.ok) := by
  refine ⟨?_, ?_, ?_, ?_, ?_⟩
  · intro st rows snap hsec hsnap
    have h1 : Pintura.load rows st
        = { st with sections := loadSections "Partes".data rows } := by
      unfold Pintura.load
      exact applyPendingIfReady_of_none hsnap
    have h2 : Pintura.offer snap st = { st with pendingSnapshot := some snap } := by
      unfold Pintura.offer Pintura.applyPendingIfReady
      simp [hsec]
    calc Pintura.offer snap (Pintura.load rows st)
        = Pintura.offer snap { st with sections := loadSections "Partes".data rows } := by
          rw [h1]
      _ = Pintura.load rows { st with pendingSnapshot := some snap } := rfl
      _ = Pintura.load rows (Pintura.offer snap st) := by rw [h2]
  · intro st
    cases hsnap : st.pendingSnapshot with
    | none =>
      rw [applyPendingIfReady_of_none hsnap]
      exact applyPendingIfReady_of_none hsnap
    | some snap =>
      by_cases hsec : st.sections = []
      · have h : Pintura.applyPendingIfReady st = st := by
          unfold Pintura.applyPendingIfReady
          simp [hsnap, hsec]
        rw [h]
        exact h
      · exact applyPendingIfReady_of_none (by
          unfold Pintura.applyPendingIfReady
          simp [hsnap, hsec])
  · intro st rows vin checks id hT hB hv hr
    have hF : ((rows.filter (·.activa)).map
        (fun r => ({ label := r.label, done := false } : Task))) ≠ [] := by
      simpa [List.map_eq_nil_iff] using hr
    unfold Chasis.load Chasis.offerSnapshot Chasis.queueOrApplyChecks
      Chasis.applyPendingChecks Chasis.flushBufferedIfAny
    simp [hT, hB, hv, hF]
  · intro st
    cases hb : st.buffered with
    | none =>
      rw [flushBufferedIfAny_of_none hb]
      exact flushBufferedIfAny_of_none hb
    | some b =>
      exact flushBufferedIfAny_of_none (by
        unfold Chasis.flushBufferedIfAny
        simp [hb])
  · intro st rows id checks hT hB hr
    have hF : ((rows.filter (·.activa)).map
        (fun r => ({ label := r.label, done := false } : Task))) ≠ [] := by
      simpa [List.map_eq_nil_iff] using hr
    unfold Chasis.load Chasis.handleVinResp Chasis.applyPendingChecks
      Chasis.flushBufferedIfAny
    refine ⟨?_, ?_, ?_, ?_, ?_⟩ <;> simp [hT, hB, hF]

/-- Concrete inputs for the C1 witness: an initial pintura screen, a
one-row catalog and a snapshot with a checked column. -/
def c1wPintura : Pintura.State :=
  { sections := [], colorDescripcion := [], colorRAL := [], pendingId := none,
    pendingSnapshot := none, dailyCount := 0, showModal := false }

/-- Concrete snapshot for the C1 witness. -/
def c1wSnap : Pintura.Snapshot :=
  { color := some "x".data, ral := some "y".data,
    checks := [("a".data, true)], id := some 5 }

/-- Witness for the amended C1 at concrete inputs: snapshot before or
after the one-row catalog load gives the same pintura state, the drain is
idempotent there, and the chasis snapshot path commutes on a concrete
catalog. -/
theorem c1_order_independence_witness :
    Pintura.offer c1wSnap (Pintura.load c1xRows c1wPintura)
      = Pintura.load c1xRows (Pintura.offer c1wSnap c1wPintura) ∧
    Pintura.applyPendingIfReady
        (Pintura.applyPendingIfReady (Pintura.offer c1wSnap c1wPintura))
      = Pintura.applyPendingIfReady (Pintura.offer c1wSnap c1wPintura) ∧
    Chasis.load c1xRows (Chasis.offerSnapshot c1xChasis "B".data [("a".data, true)] (some 5))
      = Chasis.offerSnapshot (Chasis.load c1xRows c1xChasis) "B".data
          [("a".data, true)] (some 5) :=
  ⟨c1_order_independence_amended.1 c1wPintura c1xRows c1wSnap rfl rfl,
   c1_order_independence_amended.2.1 (Pintura.offer c1wSnap c1wPintura),
   c1_order_independence_amended.2.2.1 c1xChasis c1xRows "B".data
     [("a".data, true)] (some 5) rfl rfl (by decide) (by decide)⟩

/-! ### Claim C10 -/

theorem modifyIdx_length (l : List α) (n : Nat) (f : α → α) :
    (Pintura.modifyIdx l n f).length = l.length := by
  induction l generalizing n with
  | nil => rfl
  | cons a t ih =>
    cases n with
    | zero => rfl
    | succ m => simp [Pintura.modifyIdx, ih]

theorem getD_modifyIdx_ne (l : List α) {m n : Nat} (f : α → α) (d : α) (h : m ≠ n) :
    (Pintura.modifyIdx l n f).getD m d = l.getD m d := by
  induction l generalizing m n with
  | nil => rfl
  | cons a t ih =>
    cases n with
    | zero =>
      cases m with
      | zero => exact absurd rfl h
      | succ k => simp [Pintura.modifyIdx]
    | succ nn =>
      cases m with
      | zero => simp [Pintura.modifyIdx]
      | succ k =>
        simp only [Pintura.modifyIdx, List.getD_cons_succ]
        exact ih (fun he => h (by rw [he]))

theorem getD_modifyIdx_self (l : List α) {n : Nat} (f : α → α) (d : α)
    (h : n < l.length) :
    (Pintura.modifyIdx l n f).getD n d = f (l.getD n d) := by
  induction l generalizing n with
  | nil => exact absurd h (by simp)
  | cons a t ih =>
    cases n with
    | zero => rfl
    | succ m =>
      simp only [Pintura.modifyIdx, List.getD_cons_succ]
      exact ih (by simpa using h)

/-- C10: toggleTask flips exactly the completed flag of the addressed
item.  In the sectioned pintura screen it preserves the color inputs, the
pending snapshot and id, the counter, the number and names of sections,
the number, order and labels of items, and every other done flag; in the
flat chasis screen it likewise preserves the vin, its state, the pending
id and every other task. -/
theorem c10_toggle_frame :
    (∀ (st : Pintura.State) (si ti : Nat) (dS : Section) (dT : Task),
      si < st.sections.length →
      ti < (st.sections.getD si dS).tasks.length →
      (Pintura.toggleTask st si ti).colorDescripcion = st.colorDescripcion ∧
      (Pintura.toggleTask st si ti).colorRAL = st.colorRAL ∧
      (Pintura.toggleTask st si ti).pendingId = st.pendingId ∧
      (Pintura.toggleTask st si ti).pendingSnapshot = st.pendingSnapshot ∧
      (Pintura.toggleTask st si ti).dailyCount = st.dailyCount ∧
      (Pintura.toggleTask st si ti).sections.length = st.sections.length ∧
      (∀ i, ((Pintura.toggleTask st si ti).sections.getD i dS).name
          = (st.sections.getD i dS).name) ∧
      (∀ i, ((Pintura.toggleTask st si ti).sections.getD i dS).tasks.length
          = (st.sections.getD i dS).tasks.length) ∧
      (∀ i j, (((Pintura.toggleTask st si ti).sections.getD i dS).tasks.getD j dT).label
          = ((st.sections.getD i dS).tasks.getD j dT).label) ∧
      (∀ i j, ¬(i = si ∧ j = ti) →
        (((Pintura.toggleTask st si ti).sections.getD i dS).tasks.getD j dT).done
          = ((st.sections.getD i dS).tasks.getD j dT).done) ∧
      (((Pintura.toggleTask st si ti).sections.getD si dS).tasks.getD ti dT).done
          = !((st.sections.getD si dS).tasks.getD ti dT).done) ∧
    (∀ (st : Chasis.State) (k : Nat) (dT : Task),
      k < st.tasks.length →
      (Chasis.toggleTask st k).bastidor = st.bastidor ∧
      (Chasis.toggleTask st k).vinState = st.vinState ∧
      (Chasis.toggleTask st k).pendingId = st.pendingId ∧
      (Chasis.toggleTask st k).buffered = st.buffered ∧
      (Chasis.toggleTask st k).dailyCount = st.dailyCount ∧
      (Chasis.toggleTask st k).tasks.length = st.tasks.length ∧
      (∀ j, ((Chasis.toggleTask st k).tasks.getD j dT).label
          = (st.tasks.getD j dT).label) ∧
      (∀ j, j ≠ k →
        ((Chasis.toggleTask st k).tasks.getD j dT).done = (st.tasks.getD j dT).done) ∧
      ((Chasis.toggleTask st k).tasks.getD k dT).done
          = !(st.tasks.getD k dT).done) := by
  constructor
  · intro st si ti dS dT hsi hti
    refine ⟨rfl, rfl, rfl, rfl, rfl, modifyIdx_length _ _ _, ?_, ?_, ?_, ?_, ?_⟩
    · intro i
      by_cases h : i = si
      · subst h
        rw [Pintura.toggleTask, getD_modifyIdx_self _ _ _ hsi]
      · exact congrArg Section.name (getD_modifyIdx_ne _ _ _ h)
    · intro i
      by_cases h : i = si
      · subst h
        rw [Pintura.toggleTask, getD_modifyIdx_self _ _ _ hsi]
        exact modifyIdx_length _ _ _
      · exact congrArg (List.length ∘ Section.tasks) (getD_modifyIdx_ne _ _ _ h)
    · intro i j
      by_cases h : i = si
      · subst h
        rw [Pintura.toggleTask, getD_modifyIdx_self _ _ _ hsi]
        by_cases hj : j = ti
        · subst hj
          rw [getD_modifyIdx_self _ _ _ hti]
        · rw [getD_modifyIdx_ne _ _ _ hj]
      · rw [Pintura.toggleTask, getD_modifyIdx_ne _ _ _ h]
    · intro i j hij
      by_cases h : i = si
      · subst h
        have hj : j ≠ ti := fun hj => hij ⟨rfl, hj⟩
        rw [Pintura.toggleTask, getD_modifyIdx_self _ _ _ hsi,
          getD_modifyIdx_ne _ _ _ hj]
      · rw [Pintura.toggleTask, getD_modifyIdx_ne _ _ _ h]
    · rw [Pintura.toggleTask, getD_modifyIdx_self _ _ _ hsi,
        getD_modifyIdx_self _ _ _ hti]
  · intro st k dT hk
    refine ⟨rfl, rfl, rfl, rfl, rfl, modifyIdx_length _ _ _, ?_, ?_, ?_⟩
    · intro j
      by_cases h : j = k
      · subst h
        rw [Chasis.toggleTask, getD_modifyIdx_self _ _ _ hk]
      · exact congrArg Task.label (getD_modifyIdx_ne _ _ _ h)
    · intro j hj
      exact congrArg Task.done (getD_modifyIdx_ne _ _ _ hj)
    · rw [Chasis.toggleTask, getD_modifyIdx_self _ _ _ hk]

/-- Default section used when indexing with getD in the frame theorems. -/
def dSection : Section := { name := [], tasks := [] }

/-- Default task used when indexing with getD in the frame theorems. -/
def dTask : Task := { label := [], done := false }

/-- Concrete pintura state for the C10 witness. -/
def c10wPintura : Pintura.State :=
  { sections := [{ name := "s".data,
                   tasks := [{ label := "a".data, done := false },
                             { label := "b".data, done := false }] }],
    colorDescripcion := [], colorRAL := [], pendingId := none,
    pendingSnapshot := none, dailyCount := 0, showModal := false }

/-- Concrete chasis state for the C10 witness. -/
def c10wChasis : Chasis.State :=
  { tasks := [{ label := "a".data, done := false },
              { label := "b".data, done := true }],
    bastidor := [], vinState := .idle, pendingId := none,
    buffered := none, dailyCount := 0 }

/-- Witness for C10 at a concrete pintura state with one section of two
tasks (toggling the second) and a concrete chasis state with two tasks
(toggling the first). -/
theorem c10_toggle_witness :
    (0 : Nat) < c10wPintura.sections.length ∧
    (1 : Nat) < (c10wPintura.sections.getD 0 dSection).tasks.length ∧
    (((Pintura.toggleTask c10wPintura 0 1).sections.getD 0 dSection).tasks.getD 1 dTask).done
        = !((c10wPintura.sections.getD 0 dSection).tasks.getD 1 dTask).done ∧
    ((Pintura.toggleTask c10wPintura 0 1).sections.getD 0 dSection).name
        = (c10wPintura.sections.getD 0 dSection).name ∧
    ((Chasis.toggleTask c10wChasis 0).tasks.getD 0 dTask).done
        = !(c10wChasis.tasks.getD 0 dTask).done ∧
    ((Chasis.toggleTask c10wChasis 0).tasks.getD 1 dTask).done
        = (c10wChasis.tasks.getD 1 dTask).done :=
  ⟨by decide, by decide,
   (c10_toggle_frame.1 c10wPintura 0 1 dSection dTask
      (by decide) (by decide)).2.2.2.2.2.2.2.2.2.2,
   (c10_toggle_frame.1 c10wPintura 0 1 dSection dTask
      (by decide) (by decide)).2.2.2.2.2.2.1 0,
   (c10_toggle_frame.2 c10wChasis 0 dTask (by decide)).2.2.2.2.2.2.2.2,
   (c10_toggle_frame.2 c10wChasis 0 dTask (by decide)).2.2.2.2.2.2.2.1 1
     (by decide)⟩

end App
